import Mathlib

/-
Shallow embedding of the birdwatcher package service core
(agent/plugins/configurepackage/birdwatcher/birdwatcherservice/birdwatcherservice.go).

Embedding conventions:
- Go maps are embedded as association lists (List (String × _)) with lookup
  by key; Go map indexing with a missing key yields the zero value, which is
  embedded with Option and getD.  Go map keys are unique, so a first-match
  lookup coincides with Go map access regardless of iteration order.
- Go pointers that may be nil are embedded as Option.
- Go (value, error) multiple returns are embedded as products with an
  Option String error component, or as Except String where the Go code
  never inspects the partial value.
- Collaborator interfaces (archive backend, manifest cache adapter,
  environment collector, downloader, report facade, time provider) are
  fields of the PackageService record, mirroring the Go struct of the same
  name; their behavior is an input of every theorem.
- Go int64 arithmetic is embedded as Int with an explicit wrap at 2 ^ 64
  where overflow matters; Go integer division truncates toward zero, which
  is Int.tdiv.
-/

/-- Modelled from the spec: FileInfo carries a map of checksum algorithm
names to hex digests.  (The birdwatcher type declarations live outside the
given source file; the spec's data model section defines them.) -/
structure FileInfo where
  checksums : List (String × String)
deriving DecidableEq

/-- Modelled from the spec: a PackageInfo (the spec's PackageVariant)
references a key of the manifest file table via fileName. -/
structure PackageInfo where
  fileName : String
deriving DecidableEq

/-- Innermost selector level: architecture → package variant.  The value is
an Option because the Go map holds possibly-nil pointers. -/
abbrev ArchMap := List (String × Option PackageInfo)

/-- Middle selector level: platform version → architecture map. -/
abbrev VersionMap := List (String × ArchMap)

/-- Outermost selector level: platform → version map. -/
abbrev PackagesMap := List (String × VersionMap)

instance : DecidableEq ArchMap := inferInstance

instance : DecidableEq VersionMap := inferInstance

instance : DecidableEq PackagesMap := inferInstance

/-- Modelled from the spec: a Manifest has a version, the three-level
selector tree and a file table (filename → FileInfo, values nullable as in
the Go map of pointers). -/
structure Manifest where
  version : String
  packages : PackagesMap
  files : List (String × Option FileInfo)
deriving DecidableEq

/-- The archive File (the spec's ResolvedFile): a file table entry bound to
its name. -/
structure File where
  name : String
  info : FileInfo
deriving DecidableEq

/-- Host operating-system attributes as reported by the environment
collector. -/
structure OperatingSystemInfo where
  platform : String
  platformVersion : String
  architecture : String
deriving DecidableEq

/-- Host cloud-instance attributes as reported by the environment
collector. -/
structure Ec2Infrastructure where
  instanceID : String
  instanceType : String
  region : String
  availabilityZone : String
deriving DecidableEq

/-- Environment value returned by the collector. -/
structure Environment where
  operatingSystem : OperatingSystemInfo
  ec2Infrastructure : Ec2Infrastructure
deriving DecidableEq

/-- Input handed to the downloader collaborator (artifact.DownloadInput). -/
structure DownloadInput where
  sourceURL : String
  sourceChecksums : List (String × String)
deriving DecidableEq

/-- Output returned by the downloader collaborator
(artifact.DownloadOutput); only the local file path is consumed. -/
structure DownloadOutput where
  localFilePath : String
deriving DecidableEq

/-- One step record of the report payload
(ssm.ConfigurePackageResultStep). -/
structure ConfigurePackageResultStep where
  action : String
  result : Int
  timing : Int
deriving DecidableEq

/-- Report payload (ssm.PutConfigurePackageResultInput).  The Go
attributes map has fixed string keys; it is embedded as a list of pairs in
the order the source writes them. -/
structure PutConfigurePackageResultInput where
  packageName : String
  packageVersion : String
  previousPackageVersion : Option String
  operation : String
  overallTiming : Int
  result : Int
  attributes : List (String × String)
  steps : List ConfigurePackageResultStep
deriving DecidableEq

/-- Modelled from the spec: one step of a PackageResult with the field
names the source uses (t.Operation, t.Exitcode, t.Timing). -/
structure TraceOutput where
  operation : String
  exitcode : Int
  timing : Int
deriving DecidableEq

/-- Modelled from the spec: the PackageResult handed to ReportResult, with
the field names the source uses (result.Timing is the spec's
startTimestampNanos). -/
structure PackageResult where
  packageName : String
  version : String
  previousPackageVersion : String
  operation : String
  exitcode : Int
  timing : Int
  trace : List TraceOutput
deriving DecidableEq

/-- Modelled from the spec: the manifest cache adapter is an external
key-value store of raw bytes keyed by (name, version); writes may fail.
The store field is the current contents; the writeErr field is the
adapter's injected write-failure behavior. -/
structure CacheState where
  store : String → String → Option String
  writeErr : String → String → String → Option String

/-- Cache read (packageservice.ManifestCache.ReadManifest): a missing key
is the adapter's read error, surfaced verbatim by the core. -/
def CacheState.readManifest (c : CacheState) (packageName version : String) :
    Except String String :=
  match c.store packageName version with
  | some data => .ok data
  | none => .error "cache miss"

/-- Cache write (packageservice.ManifestCache.WriteManifest): on success
the key is overwritten with the new bytes, on adapter failure the store is
unchanged and the error is returned. -/
def CacheState.writeManifest (c : CacheState) (packageName version content : String) :
    Option String × CacheState :=
  match c.writeErr packageName version content with
  | some e => (some e, c)
  | none =>
    (none, { c with store := fun n v =>
        if n = packageName ∧ v = version then some content else c.store n v })

/-- The PackageService struct: the collaborator handles held by the core.
jsonDecode is the JSON decoding primitive used by parseManifest;
collectData is the (environment, error) pair the collector returns —
modelled from the spec, a failing collector still yields a (partial or
empty) environment value alongside its error, as Go multiple return does;
nowUnixNano is the injected time provider reading; download and
putConfigurePackageResult are the downloader and the report transport. -/
structure PackageService where
  pkgSvcName : String
  downloadArchiveInfo : String → String → Except String String
  getResourceArn : Manifest → String
  getResourceVersion : String → String → String × String
  getFileDownloadLocation : File → String → String → Except String String
  jsonDecode : String → Except String Manifest
  collectData : Environment × Option String
  nowUnixNano : Int
  download : DownloadInput → DownloadOutput × Option String
  putConfigurePackageResult : PutConfigurePackageResultInput → Option String

/-- parseManifest: decodes raw bytes into a Manifest, wrapping decode
failures. -/
def parseManifest (jsonDecode : String → Except String Manifest) (data : String) :
    Except String Manifest :=
  match jsonDecode data with
  | .error e => .error ("failed to decode manifest: " ++ e)
  | .ok m => .ok m

/-- readManifestFromCache: reads raw bytes keyed by the caller-supplied
(packageName, version) and parses them; read errors are surfaced
verbatim. -/
def readManifestFromCache (c : CacheState) (jsonDecode : String → Except String Manifest)
    (packageName version : String) : Except String Manifest :=
  match c.readManifest packageName version with
  | .error e => .error e
  | .ok data => parseManifest jsonDecode data

/-- matchPackageSelector: the common body of the three Go selector-matching
functions (they are textually identical up to the map value type): the
exact key if present, else the wildcard key, else failure. -/
def matchPackageSelector {α : Type} (key : String) (dict : List (String × α)) :
    String × Bool :=
  if (dict.lookup key).isSome then (key, true)
  else if (dict.lookup "_any").isSome then ("_any", true)
  else ("", false)

/-- matchPackageSelectorPlatform from the source. -/
def matchPackageSelectorPlatform (key : String) (dict : PackagesMap) : String × Bool :=
  matchPackageSelector key dict

/-- matchPackageSelectorVersion from the source. -/
def matchPackageSelectorVersion (key : String) (dict : VersionMap) : String × Bool :=
  matchPackageSelector key dict

/-- matchPackageSelectorArch from the source. -/
def matchPackageSelectorArch (key : String) (dict : ArchMap) : String × Bool :=
  matchPackageSelector key dict

/-- The error message of extractPackageInfo when no selector level
resolves. -/
def noMatchMessage (platform version architecture : String) : String :=
  "no manifest found for platform: " ++ platform ++ ", version " ++ version ++
    ", architecture " ++ architecture

/-- The body of extractPackageInfo after environment collection succeeded:
three nested selector matches over the packages tree; Go map indexing with
the chosen key is embedded as lookup with getD of the zero value. -/
def extractPackageInfoFrom (platform version architecture : String)
    (packages : PackagesMap) : Except String (Option PackageInfo) :=
  match matchPackageSelectorPlatform platform packages with
  | (keyplatform, true) =>
    match matchPackageSelectorVersion version ((packages.lookup keyplatform).getD []) with
    | (keyversion, true) =>
      match matchPackageSelectorArch architecture
          ((((packages.lookup keyplatform).getD []).lookup keyversion).getD []) with
      | (keyarch, true) =>
        .ok ((((((packages.lookup keyplatform).getD []).lookup keyversion).getD
          []).lookup keyarch).getD none)
      | (_, false) => .error (noMatchMessage platform version architecture)
    | (_, false) => .error (noMatchMessage platform version architecture)
  | (_, false) => .error (noMatchMessage platform version architecture)

/-- extractPackageInfo: collects the environment (aborting on collector
failure) and resolves the host triple against the manifest selector
tree. -/
def extractPackageInfo (ds : PackageService) (manifest : Manifest) :
    Except String (Option PackageInfo) :=
  match ds.collectData with
  | (_, some e) => .error ("failed to collect data: " ++ e)
  | (env, none) =>
    extractPackageInfoFrom env.operatingSystem.platform
      env.operatingSystem.platformVersion env.operatingSystem.architecture
      manifest.packages

/-- Specification-side one-level lookup, following the claim wording: at
each level pick the exact key if present, otherwise the wildcard key
if present, otherwise fail. -/
def levelSelect {α : Type} (key : String) (dict : List (String × α)) : Option α :=
  match dict.lookup key with
  | some v => some v
  | none => dict.lookup "_any"

/-- Specification-side variant resolution, following the claim wording:
three sequential level-local lookups, each committing to its chosen branch
before descending, with no backtracking. -/
def resolveVariantSpec (platform version architecture : String)
    (packages : PackagesMap) : Except String (Option PackageInfo) :=
  match levelSelect platform packages with
  | none => .error (noMatchMessage platform version architecture)
  | some sub =>
    match levelSelect version sub with
    | none => .error (noMatchMessage platform version architecture)
    | some sub2 =>
      match levelSelect architecture sub2 with
      | none => .error (noMatchMessage platform version architecture)
      | some pkg => .ok pkg

theorem extractFrom_eq_spec (platform version architecture : String)
    (packages : PackagesMap) :
    extractPackageInfoFrom platform version architecture packages =
      resolveVariantSpec platform version architecture packages := by
  unfold extractPackageInfoFrom resolveVariantSpec matchPackageSelectorPlatform
    matchPackageSelectorVersion matchPackageSelectorArch matchPackageSelector levelSelect
  cases hp : packages.lookup platform with
  | some sub =>
    cases hv : sub.lookup version with
    | some sub2 =>
      cases ha : sub2.lookup architecture with
      | some pkg => simp [hp, hv, ha]
      | none =>
        cases haa : sub2.lookup "_any" with
        | some pkg => simp [hp, hv, ha, haa]
        | none => simp [hp, hv, ha, haa]
    | none =>
      cases hva : sub.lookup "_any" with
      | some sub2 =>
        cases ha : sub2.lookup architecture with
        | some pkg => simp [hp, hv, hva, ha]
        | none =>
          cases haa : sub2.lookup "_any" with
          | some pkg => simp [hp, hv, hva, ha, haa]
          | none => simp [hp, hv, hva, ha, haa]
      | none => simp [hp, hv, hva]
  | none =>
    cases hpa : packages.lookup "_any" with
    | some sub =>
      cases hv : sub.lookup version with
      | some sub2 =>
        cases ha : sub2.lookup architecture with
        | some pkg => simp [hp, hpa, hv, ha]
        | none =>
          cases haa : sub2.lookup "_any" with
          | some pkg => simp [hp, hpa, hv, ha, haa]
          | none => simp [hp, hpa, hv, ha, haa]
      | none =>
        cases hva : sub.lookup "_any" with
        | some sub2 =>
          cases ha : sub2.lookup architecture with
          | some pkg => simp [hp, hpa, hv, hva, ha]
          | none =>
            cases haa : sub2.lookup "_any" with
            | some pkg => simp [hp, hpa, hv, hva, ha, haa]
            | none => simp [hp, hpa, hv, hva, ha, haa]
        | none => simp [hp, hpa, hv, hva]
    | none => simp [hp, hpa]

/-- C1: for every manifest and host triple, variant resolution performs
three sequential level-local lookups (exact key, else the wildcard key,
else failure), committing to the chosen key before descending with no
backtracking; in particular, if the platform exists exactly but neither
the host version nor the wildcard exists under it, resolution fails with
the NoMatchError naming the triple — even if a wildcard platform branch
elsewhere would have matched (the conclusion holds with no hypothesis on
the rest of the tree). -/
theorem C1_selector_level_local_no_backtracking
    (ds : PackageService) (env : Environment) (manifest : Manifest)
    (hc : ds.collectData = (env, none)) :
    extractPackageInfo ds manifest =
      resolveVariantSpec env.operatingSystem.platform
        env.operatingSystem.platformVersion env.operatingSystem.architecture
        manifest.packages ∧
    (∀ sub : VersionMap,
      manifest.packages.lookup env.operatingSystem.platform = some sub →
      sub.lookup env.operatingSystem.platformVersion = none →
      sub.lookup "_any" = none →
      extractPackageInfo ds manifest =
        .error (noMatchMessage env.operatingSystem.platform
          env.operatingSystem.platformVersion env.operatingSystem.architecture)) := by
  have heq : extractPackageInfo ds manifest =
      resolveVariantSpec env.operatingSystem.platform
        env.operatingSystem.platformVersion env.operatingSystem.architecture
        manifest.packages := by
    unfold extractPackageInfo
    rw [hc]
    exact extractFrom_eq_spec _ _ _ _
  refine ⟨heq, ?_⟩
  intro sub hp hv hva
  rw [heq]
  unfold resolveVariantSpec levelSelect
  simp [hp, hv, hva]

/-- Environment fixture: a linux host at version 5.0 on x86_64. -/
def env0 : Environment :=
  { operatingSystem :=
      { platform := "linux", platformVersion := "5.0", architecture := "x86_64" }
    ec2Infrastructure :=
      { instanceID := "i-0", instanceType := "t2", region := "us-east-1",
        availabilityZone := "us-east-1a" } }

/-- Service fixture for the selector claims: collector succeeds with env0,
all other collaborators are inert. -/
def ds0 : PackageService :=
  { pkgSvcName := "birdwatcher"
    downloadArchiveInfo := fun _ _ => .error "unused"
    getResourceArn := fun _ => "arn"
    getResourceVersion := fun n v => (n, v)
    getFileDownloadLocation := fun _ _ _ => .error "unused"
    jsonDecode := fun _ => .error "unused"
    collectData := (env0, none)
    nowUnixNano := 0
    download := fun _ => ({ localFilePath := "" }, none)
    putConfigurePackageResult := fun _ => none }

/-- Manifest fixture for C1: platform linux exists but holds neither the
host version 5.0 nor the wildcard, while a wildcard platform branch
elsewhere would match the full host triple. -/
def manifest1 : Manifest :=
  { version := "1.0"
    packages :=
      [("linux", [("4.0", [("x86_64", some { fileName := "old.zip" })])]),
       ("_any", [("5.0", [("x86_64", some { fileName := "pkg.zip" })])])]
    files := [("pkg.zip", some { checksums := [("sha256", "abc")] })] }

theorem C1_selector_witness :
    extractPackageInfo ds0 manifest1 =
      .error "no manifest found for platform: linux, version 5.0, architecture x86_64" :=
  (C1_selector_level_local_no_backtracking ds0 env0 manifest1 rfl).2
    [("4.0", [("x86_64", some { fileName := "old.zip" })])] rfl rfl rfl

/-- downloadManifest: fetches raw manifest bytes through the archive
backend, parses them, compares against the manifest previously cached
under the manifest's own resolved (resource identifier, version) — a
cache read or parse failure there degrades to "no cached manifest" — and
unconditionally writes the fresh bytes to the cache under that same key.
The result mirrors the Go triple (manifest pointer, isSameAsCache,
error). -/
def downloadManifest (ds : PackageService) (c : CacheState) (packageName version : String) :
    (Option Manifest × Bool × Option String) × CacheState :=
  match ds.downloadArchiveInfo packageName version with
  | .error e => ((none, false, some ("failed to download manifest - " ++ e)), c)
  | .ok byteManifest =>
    match parseManifest ds.jsonDecode byteManifest with
    | .error e => ((none, false, some e), c)
    | .ok parsedManifest =>
      let cachedManifest : Option Manifest :=
        match readManifestFromCache c ds.jsonDecode (ds.getResourceArn parsedManifest)
            parsedManifest.version with
        | .ok m => some m
        | .error _ => none
      let isSameAsCache : Bool := decide (cachedManifest = some parsedManifest)
      match c.writeManifest (ds.getResourceArn parsedManifest) parsedManifest.version
          byteManifest with
      | (some e, c2) =>
        ((none, isSameAsCache, some ("failed to write manifest to file: " ++ e)), c2)
      | (none, c2) => ((some parsedManifest, isSameAsCache, none), c2)

/-- C2: for every fresh-manifest resolution whose fetch and parse succeed,
the returned isSameAsCache flag is true exactly when reading and parsing
the cache under the manifest's own resolved (resource identifier, version)
yields a manifest structurally equal to the freshly parsed one; a cache
read or parse failure is non-fatal — the flag is simply false and, when
the subsequent write succeeds, the operation still returns the parsed
manifest with no error. -/
theorem C2_isSameAsCache_iff
    (ds : PackageService) (c : CacheState) (packageName version bytes : String) (m : Manifest)
    (hfetch : ds.downloadArchiveInfo packageName version = .ok bytes)
    (hparse : parseManifest ds.jsonDecode bytes = .ok m) :
    ((downloadManifest ds c packageName version).1.2.1 = true ↔
      readManifestFromCache c ds.jsonDecode (ds.getResourceArn m) m.version = .ok m) ∧
    (c.writeErr (ds.getResourceArn m) m.version bytes = none →
      (downloadManifest ds c packageName version).1.1 = some m ∧
      (downloadManifest ds c packageName version).1.2.2 = none) := by
  simp only [downloadManifest, hfetch, hparse, CacheState.writeManifest]
  constructor
  · cases hw : c.writeErr (ds.getResourceArn m) m.version bytes with
    | some e =>
      simp only [hw]
      cases hr : readManifestFromCache c ds.jsonDecode (ds.getResourceArn m) m.version with
      | ok m2 => simp [hr]
      | error e2 => simp [hr]
    | none =>
      simp only [hw]
      cases hr : readManifestFromCache c ds.jsonDecode (ds.getResourceArn m) m.version with
      | ok m2 => simp [hr]
      | error e2 => simp [hr]
  · intro hw
    simp [hw]

/-- Manifest fixture for the cache claims. -/
def manifest2 : Manifest :=
  { version := "2.0"
    packages := [("linux", [("_any", [("x86_64", some { fileName := "pkg.zip" })])])]
    files := [("pkg.zip", some { checksums := [("sha256", "abc")] })] }

/-- Service fixture for the cache claims: the archive yields the fixed
bytes "BYTES" which decode to manifest2; the resource identifier is
"arn:pkg". -/
def ds2 : PackageService :=
  { pkgSvcName := "birdwatcher"
    downloadArchiveInfo := fun _ _ => .ok "BYTES"
    getResourceArn := fun _ => "arn:pkg"
    getResourceVersion := fun n v => (n, v)
    getFileDownloadLocation := fun _ _ _ => .error "unused"
    jsonDecode := fun s => if s = "BYTES" then .ok manifest2 else .error "bad json"
    collectData := (env0, none)
    nowUnixNano := 0
    download := fun _ => ({ localFilePath := "" }, none)
    putConfigurePackageResult := fun _ => none }

/-- Cache fixture holding the same bytes under the resolved key, so the
cached parse equals the fresh parse; writes always succeed. -/
def cache2 : CacheState :=
  { store := fun n v => if n = "arn:pkg" ∧ v = "2.0" then some "BYTES" else none
    writeErr := fun _ _ _ => none }

theorem C2_isSameAsCache_witness :
    (downloadManifest ds2 cache2 "pkg" "latest").1.2.1 = true :=
  (C2_isSameAsCache_iff ds2 cache2 "pkg" "latest" "BYTES" manifest2 rfl rfl).1.mpr rfl

/-- C6: for every successful fresh fetch and parse, downloadManifest
writes the freshly fetched raw bytes to the cache under (resource
identifier, parsed version) unconditionally — the conclusion holds for
every cache state, including one whose cached manifest equals the parsed
one — and it fails with the cache-write error exactly when that write
fails (on write failure the store is unchanged and the returned error
wraps the adapter's message; on write success there is no error and the
key holds the fresh bytes). -/
theorem C6_cache_write_unconditional
    (ds : PackageService) (c : CacheState) (packageName version bytes : String) (m : Manifest)
    (hfetch : ds.downloadArchiveInfo packageName version = .ok bytes)
    (hparse : parseManifest ds.jsonDecode bytes = .ok m) :
    (∀ e, c.writeErr (ds.getResourceArn m) m.version bytes = some e →
      (downloadManifest ds c packageName version).1.2.2 =
        some ("failed to write manifest to file: " ++ e) ∧
      (downloadManifest ds c packageName version).2.store = c.store) ∧
    (c.writeErr (ds.getResourceArn m) m.version bytes = none →
      (downloadManifest ds c packageName version).1.2.2 = none ∧
      (downloadManifest ds c packageName version).2.store (ds.getResourceArn m) m.version =
        some bytes) := by
  simp only [downloadManifest, hfetch, hparse, CacheState.writeManifest]
  constructor
  · intro e hw
    simp [hw]
  · intro hw
    simp [hw]

theorem C6_cache_write_witness :
    (downloadManifest ds2 cache2 "pkg" "latest").1.2.2 = none ∧
    (downloadManifest ds2 cache2 "pkg" "latest").2.store "arn:pkg" "2.0" = some "BYTES" :=
  (C6_cache_write_unconditional ds2 cache2 "pkg" "latest" "BYTES" manifest2 rfl rfl).2 rfl

/-- C10: the fresh-download path writes the cache under the resolved
(resource identifier, manifest version) while the artifact path reads it
under the caller-supplied (packageName, version); whenever those keys
differ, downloadManifest leaves the (packageName, version) entry — and
hence the result of a subsequent cache read under that key — exactly as it
was, so a fresh download never makes such a read succeed when it did not
succeed before. -/
theorem C10_cache_key_mismatch_no_hit
    (ds : PackageService) (c : CacheState) (packageName version bytes : String) (m : Manifest)
    (hfetch : ds.downloadArchiveInfo packageName version = .ok bytes)
    (hparse : parseManifest ds.jsonDecode bytes = .ok m)
    (hkey : ¬(ds.getResourceArn m = packageName ∧ m.version = version)) :
    (downloadManifest ds c packageName version).2.store packageName version =
      c.store packageName version ∧
    readManifestFromCache (downloadManifest ds c packageName version).2 ds.jsonDecode
        packageName version =
      readManifestFromCache c ds.jsonDecode packageName version := by
  have hstore : (downloadManifest ds c packageName version).2.store packageName version =
      c.store packageName version := by
    simp only [downloadManifest, hfetch, hparse, CacheState.writeManifest]
    cases hw : c.writeErr (ds.getResourceArn m) m.version bytes with
    | some e => simp [hw]
    | none =>
      simp only [hw]
      have : ¬(packageName = ds.getResourceArn m ∧ version = m.version) := by
        intro h
        exact hkey ⟨h.1.symm, h.2.symm⟩
      simp [this]
  refine ⟨hstore, ?_⟩
  unfold readManifestFromCache CacheState.readManifest
  rw [hstore]

/-- Cache fixture for C10: empty store, writes succeed. -/
def cache10 : CacheState :=
  { store := fun _ _ => none
    writeErr := fun _ _ _ => none }

theorem C10_cache_key_mismatch_witness :
    (downloadManifest ds2 cache10 "pkg" "latest").2.store "pkg" "latest" = none ∧
    readManifestFromCache (downloadManifest ds2 cache10 "pkg" "latest").2 ds2.jsonDecode
        "pkg" "latest" = .error "cache miss" := by
  have h := C10_cache_key_mismatch_no_hit ds2 cache10 "pkg" "latest" "BYTES" manifest2 rfl rfl
    (by intro hk; exact absurd hk.1 (by decide))
  exact ⟨h.1, by rw [h.2]; rfl⟩

/-- The error message findFileFromManifest produces when the variant's
file is missing (Go formats the PackageInfo struct with %+v). -/
def fileNotFoundMessage (pkginfo : PackageInfo) : String :=
  "failed to find file for \x7bFileName:" ++ pkginfo.fileName ++ "\x7d"

/-- The file-lookup loop of findFileFromManifest (source lines 235-249):
scan the manifest file table for the entry named by the variant, then fail
if no entry was found or the found entry is a nil pointer. -/
def findFileForPackage (files : List (String × Option FileInfo)) (pkginfo : PackageInfo) :
    Except String File :=
  match files.lookup pkginfo.fileName with
  | some (some f) => .ok { name := pkginfo.fileName, info := f }
  | some none => .error (fileNotFoundMessage pkginfo)
  | none => .error (fileNotFoundMessage pkginfo)

/-- findFileFromManifest: resolves the variant for the host triple, then
looks the variant's file up in the manifest file table.  When
extractPackageInfo succeeds with a nil PackageInfo pointer (a selector
leaf that decoded from JSON null) the Go code dereferences nil and
panics; no claim exercises that path and it is embedded as a distinct
error outcome. -/
def findFileFromManifest (ds : PackageService) (manifest : Manifest) : Except String File :=
  match extractPackageInfo ds manifest with
  | .error e => .error ("failed to find platform: " ++ e)
  | .ok none => .error "nil PackageInfo dereference"
  | .ok (some pkginfo) => findFileForPackage manifest.files pkginfo

/-- File-table fixture for the C5 counterexample: the key exists but maps
to a JSON-null FileInfo. -/
def files5 : List (String × Option FileInfo) := [("pkg.zip", none)]

/-- Variant fixture naming that key. -/
def pkginfo5 : PackageInfo := { fileName := "pkg.zip" }

/-- Helper: whether an Except value is a success. -/
def exceptOk {ε α : Type} : Except ε α → Bool
  | .ok _ => true
  | .error _ => false

theorem C5_locateFile_counterexample :
    (files5.lookup pkginfo5.fileName).isSome = true ∧
    exceptOk (findFileForPackage files5 pkginfo5) = false := by
  decide

/-- C5 (amended): locateFile returns a ResolvedFile whose name equals the
variant's fileName and whose info is the corresponding entry of the file
table whenever that key exists in files with a non-null FileInfo value,
and fails with the file-not-found error when the key is absent or maps to
a null value. -/
theorem C5_locateFile_amended (files : List (String × Option FileInfo))
    (pkginfo : PackageInfo) :
    (∀ f : FileInfo, files.lookup pkginfo.fileName = some (some f) →
      findFileForPackage files pkginfo = .ok { name := pkginfo.fileName, info := f }) ∧
    (files.lookup pkginfo.fileName = none ∨ files.lookup pkginfo.fileName = some none →
      findFileForPackage files pkginfo = .error (fileNotFoundMessage pkginfo)) := by
  constructor
  · intro f hf
    unfold findFileForPackage
    rw [hf]
  · intro h
    unfold findFileForPackage
    cases h with
    | inl h => rw [h]
    | inr h => rw [h]

/-- File-table fixture with a genuine entry. -/
def files5b : List (String × Option FileInfo) :=
  [("pkg.zip", some { checksums := [("sha256", "abc")] })]

theorem C5_locateFile_witness :
    findFileForPackage files5b pkginfo5 =
      .ok { name := "pkg.zip", info := { checksums := [("sha256", "abc")] } } :=
  (C5_locateFile_amended files5b pkginfo5).1 { checksums := [("sha256", "abc")] } rfl

/-- C9: a file-table key that maps to a null FileInfo value makes
locateFile fail with the file-not-found error exactly as if the key were
absent (the result coincides with the lookup in an empty table), and a
successful locateFile always comes from a non-null entry whose FileInfo is
the one returned. -/
theorem C9_null_fileinfo_as_absent (files : List (String × Option FileInfo))
    (pkginfo : PackageInfo) :
    (files.lookup pkginfo.fileName = some none →
      findFileForPackage files pkginfo = .error (fileNotFoundMessage pkginfo) ∧
      findFileForPackage files pkginfo = findFileForPackage [] pkginfo) ∧
    (∀ file : File, findFileForPackage files pkginfo = .ok file →
      files.lookup pkginfo.fileName = some (some file.info) ∧
      file.name = pkginfo.fileName) := by
  constructor
  · intro h
    unfold findFileForPackage
    rw [h]
    exact ⟨rfl, rfl⟩
  · intro file hfile
    unfold findFileForPackage at hfile
    cases hl : files.lookup pkginfo.fileName with
    | some of =>
      cases of with
      | some f =>
        rw [hl] at hfile
        cases hfile
        exact ⟨by simp [hl], rfl⟩
      | none =>
        rw [hl] at hfile
        cases hfile
    | none =>
      rw [hl] at hfile
      cases hfile

theorem C9_null_fileinfo_witness :
    findFileForPackage files5 pkginfo5 =
      .error "failed to find file for \x7bFileName:pkg.zip\x7d" ∧
    findFileForPackage files5 pkginfo5 = findFileForPackage [] pkginfo5 :=
  (C9_null_fileinfo_as_absent files5 pkginfo5).1 rfl

/-- downloadFile: asks the archive backend for the download location of
the file, invokes the downloader with the URL and the file's checksums,
and fails when the downloader reports an error or returns an empty local
path; the error message carries the URL and, when present, the downloader
error text.  (The Go nil-receiver and nil-argument guards cannot arise in
this embedding: records are never nil.) -/
def downloadFile (ds : PackageService) (file : File) (packagename version : String) :
    Except String String :=
  match ds.getFileDownloadLocation file packagename version with
  | .error e => .error e
  | .ok sourceUrl =>
    let downloadInput : DownloadInput :=
      { sourceURL := sourceUrl, sourceChecksums := file.info.checksums }
    match ds.download downloadInput with
    | (downloadOutput, downloadErr) =>
      if downloadErr.isSome || downloadOutput.localFilePath == "" then
        let errMessage :=
          "failed to download installation package reliably, " ++ downloadInput.sourceURL
        let errMessage :=
          match downloadErr with
          | some e => errMessage ++ ", " ++ e
          | none => errMessage
        .error errMessage
      else .ok downloadOutput.localFilePath

/-- C8: with the download location resolved to a URL, downloadFile fails
exactly when the downloader reports an error or returns an empty local
path; the failure message contains the source URL and, when present, the
downloader's error text, and on success the result is the downloader's
local path. -/
theorem C8_downloadFile_error_contract
    (ds : PackageService) (file : File) (packagename version url : String)
    (hurl : ds.getFileDownloadLocation file packagename version = .ok url) :
    (∀ (out : DownloadOutput) (e : String),
      ds.download { sourceURL := url, sourceChecksums := file.info.checksums } = (out, some e) →
      downloadFile ds file packagename version =
        .error ("failed to download installation package reliably, " ++ url ++ ", " ++ e) ∧
      (∃ a b : String,
        "failed to download installation package reliably, " ++ url ++ ", " ++ e =
          a ++ url ++ b) ∧
      (∃ a : String,
        "failed to download installation package reliably, " ++ url ++ ", " ++ e = a ++ e)) ∧
    (∀ out : DownloadOutput,
      ds.download { sourceURL := url, sourceChecksums := file.info.checksums } = (out, none) →
      out.localFilePath = "" →
      downloadFile ds file packagename version =
        .error ("failed to download installation package reliably, " ++ url)) ∧
    (∀ out : DownloadOutput,
      ds.download { sourceURL := url, sourceChecksums := file.info.checksums } = (out, none) →
      out.localFilePath ≠ "" →
      downloadFile ds file packagename version = .ok out.localFilePath) := by
  refine ⟨?_, ?_, ?_⟩
  · intro out e hdl
    refine ⟨?_, ⟨"failed to download installation package reliably, ", ", " ++ e, ?_⟩,
      ⟨"failed to download installation package reliably, " ++ url ++ ", ", ?_⟩⟩
    · simp only [downloadFile, hurl, hdl]
      simp
    · simp [String.append_assoc]
    · simp [String.append_assoc]
  · intro out hdl hempty
    simp only [downloadFile, hurl, hdl]
    simp [hempty]
  · intro out hdl hnonempty
    simp only [downloadFile, hurl, hdl]
    simp [hnonempty]

/-- Service fixture for C8: the backend resolves the file to a fixed URL
and the downloader fails with a timeout. -/
def ds8 : PackageService :=
  { pkgSvcName := "birdwatcher"
    downloadArchiveInfo := fun _ _ => .error "unused"
    getResourceArn := fun _ => "arn"
    getResourceVersion := fun n v => (n, v)
    getFileDownloadLocation := fun _ _ _ => .ok "https://host/pkg.zip"
    jsonDecode := fun _ => .error "unused"
    collectData := (env0, none)
    nowUnixNano := 0
    download := fun _ => ({ localFilePath := "" }, some "timeout")
    putConfigurePackageResult := fun _ => none }

/-- File fixture for C8. -/
def file8 : File := { name := "pkg.zip", info := { checksums := [("sha256", "abc")] } }

theorem C8_downloadFile_witness :
    downloadFile ds8 file8 "pkg" "1.0" =
      .error
        "failed to download installation package reliably, https://host/pkg.zip, timeout" :=
  ((C8_downloadFile_error_contract ds8 file8 "pkg" "1.0" "https://host/pkg.zip" rfl).1
    { localFilePath := "" } "timeout" rfl).1

/-- The tail of DownloadArtifact once a manifest is in hand: find the
platform-matching file in the manifest and download it. -/
def downloadArtifactFromManifest (ds : PackageService) (manifest : Manifest)
    (packageName version : String) : Except String String :=
  match findFileFromManifest ds manifest with
  | .error e => .error e
  | .ok file => downloadFile ds file packageName version

/-- DownloadArtifact: first attempts to read and parse the cached manifest
under the caller-supplied (packageName, version); only on failure falls
back to a fresh manifest download, and aborts wrapping the error when the
fresh download also fails.  (downloadManifest never returns a nil manifest
together with a nil error, so the final arm is unreachable; Go would
dereference nil there.) -/
def DownloadArtifact (ds : PackageService) (c : CacheState) (packageName version : String) :
    Except String String × CacheState :=
  match readManifestFromCache c ds.jsonDecode packageName version with
  | .ok manifest => (downloadArtifactFromManifest ds manifest packageName version, c)
  | .error _ =>
    match downloadManifest ds c packageName version with
    | ((_, _, some e), c2) => (.error ("failed to download the manifest: " ++ e), c2)
    | ((some manifest, _, none), c2) =>
      (downloadArtifactFromManifest ds manifest packageName version, c2)
    | ((none, _, none), c2) => (.error "nil manifest dereference", c2)

theorem downloadManifest_reporter_indep (ds : PackageService)
    (col : Environment × Option String) (dl : DownloadInput → DownloadOutput × Option String)
    (c : CacheState) (packageName version : String) :
    downloadManifest { ds with collectData := col, download := dl } c packageName version =
      downloadManifest ds c packageName version := rfl

/-- C7: DownloadArtifact first attempts the cache read and parse under the
caller-supplied (packageName, version); on success the fresh-download path
is never taken (the result is the same for every archive fetch behavior
and the cache state is untouched); on a read or parse failure it falls
back to the fresh download, and when that also fails the operation aborts
wrapping the error — with a result that is the same for every collector
and every downloader behavior, i.e. without attempting file selection or
download. -/
theorem C7_cache_first_then_fresh
    (ds : PackageService) (c : CacheState) (packageName version : String) :
    (∀ m : Manifest, readManifestFromCache c ds.jsonDecode packageName version = .ok m →
      DownloadArtifact ds c packageName version =
        (downloadArtifactFromManifest ds m packageName version, c) ∧
      (∀ f : String → String → Except String String,
        DownloadArtifact { ds with downloadArchiveInfo := f } c packageName version =
          (downloadArtifactFromManifest { ds with downloadArchiveInfo := f } m
            packageName version, c))) ∧
    (∀ e : String, readManifestFromCache c ds.jsonDecode packageName version = .error e →
      ∀ e2 : String, (downloadManifest ds c packageName version).1.2.2 = some e2 →
      DownloadArtifact ds c packageName version =
        (.error ("failed to download the manifest: " ++ e2),
          (downloadManifest ds c packageName version).2) ∧
      (∀ (col : Environment × Option String)
          (dl : DownloadInput → DownloadOutput × Option String),
        DownloadArtifact { ds with collectData := col, download := dl } c packageName version =
          DownloadArtifact ds c packageName version)) := by
  constructor
  · intro m hm
    constructor
    · simp only [DownloadArtifact, hm]
    · intro f
      simp only [DownloadArtifact]
      have hm2 : readManifestFromCache c
          ({ ds with downloadArchiveInfo := f } : PackageService).jsonDecode
          packageName version = .ok m := hm
      simp only [hm2]
  · intro e he e2 he2
    constructor
    · simp only [DownloadArtifact, he]
      rcases hd : downloadManifest ds c packageName version with ⟨⟨m2, b2, err2⟩, c2⟩
      rw [hd] at he2
      simp only at he2
      subst he2
      cases m2 with
      | some m3 => rfl
      | none => rfl
    · intro col dl
      have hr : readManifestFromCache c
          ({ ds with collectData := col, download := dl } : PackageService).jsonDecode
          packageName version = .error e := he
      simp only [DownloadArtifact, he, hr, downloadManifest_reporter_indep]
      rcases hd : downloadManifest ds c packageName version with ⟨⟨m2, b2, err2⟩, c2⟩
      rw [hd] at he2
      simp only at he2
      subst he2
      cases m2 with
      | some m3 => rfl
      | none => rfl

/-- Cache fixture for the C7 witness: raw bytes cached under the
caller-supplied key. -/
def cache7 : CacheState :=
  { store := fun n v => if n = "pkg" ∧ v = "2.0" then some "BYTES" else none
    writeErr := fun _ _ _ => none }

theorem C7_cache_first_witness :
    DownloadArtifact ds2 cache7 "pkg" "2.0" =
      (downloadArtifactFromManifest ds2 manifest2 "pkg" "2.0", cache7) :=
  ((C7_cache_first_then_fresh ds2 cache7 "pkg" "2.0").1 manifest2 rfl).1

/-- Two's-complement wrap of an unbounded integer into the int64 range,
the value a Go int64 computation yields. -/
def wrap64 (x : Int) : Int := (x + 2 ^ 63) % 2 ^ 64 - 2 ^ 63

/-- Go int64 subtraction: the difference wrapped into int64. -/
def int64Sub (a b : Int) : Int := wrap64 (a - b)

/-- The elapsed-milliseconds conversion of ReportResult: the int64
difference of a raw nanosecond timestamp and the start timestamp, divided
by 1000000 with Go division (truncation toward zero). -/
def stepTiming (startNanos t : Int) : Int := Int.tdiv (int64Sub t startNanos) 1000000

/-- The payload ReportResult builds: package identity, operation, overall
elapsed time, exit code, the host attributes as a flat string-keyed map
and the ordered step records; the previous version is omitted when
empty.  The overall timing applies the same conversion to the injected
time source's reading. -/
def buildReportInput (env : Environment) (now : Int) (result : PackageResult) :
    PutConfigurePackageResultInput :=
  { packageName := result.packageName
    packageVersion := result.version
    previousPackageVersion :=
      if result.previousPackageVersion ≠ "" then some result.previousPackageVersion else none
    operation := result.operation
    overallTiming := stepTiming result.timing now
    result := result.exitcode
    attributes :=
      [("platformName", env.operatingSystem.platform),
       ("platformVersion", env.operatingSystem.platformVersion),
       ("architecture", env.operatingSystem.architecture),
       ("instanceID", env.ec2Infrastructure.instanceID),
       ("instanceType", env.ec2Infrastructure.instanceType),
       ("region", env.ec2Infrastructure.region),
       ("availabilityZone", env.ec2Infrastructure.availabilityZone)]
    steps := result.trace.map fun t =>
      { action := t.operation, result := t.exitcode,
        timing := stepTiming result.timing t.timing } }

/-- ReportResult: collects the environment — discarding the collector's
error, as the source's blank assignment does — builds the payload from
whatever environment value accompanied it, submits it, and wraps a
transport error. -/
def ReportResult (ds : PackageService) (result : PackageResult) : Except String Unit :=
  match ds.collectData with
  | (env, _) =>
    match ds.putConfigurePackageResult (buildReportInput env ds.nowUnixNano result) with
    | some e => .error ("failed to report results: " ++ e)
    | none => .ok ()

/-- C3: ReportResult treats a failing environment collector as non-fatal:
its outcome with a collector error is identical to its outcome with no
collector error, and when the transport accepts the payload built from
the (partial or empty) environment the operation succeeds despite the
collector failure. -/
theorem C3_report_collector_failure_nonfatal
    (ds : PackageService) (env : Environment) (e : String) (result : PackageResult)
    (hc : ds.collectData = (env, some e)) :
    ReportResult ds result = ReportResult { ds with collectData := (env, none) } result ∧
    (ds.putConfigurePackageResult (buildReportInput env ds.nowUnixNano result) = none →
      ReportResult ds result = .ok ()) := by
  constructor
  · simp only [ReportResult, hc]
  · intro hp
    simp only [ReportResult, hc, hp]

/-- Service fixture for C3: the collector fails, the transport accepts. -/
def ds3 : PackageService :=
  { pkgSvcName := "birdwatcher"
    downloadArchiveInfo := fun _ _ => .error "unused"
    getResourceArn := fun _ => "arn"
    getResourceVersion := fun n v => (n, v)
    getFileDownloadLocation := fun _ _ _ => .error "unused"
    jsonDecode := fun _ => .error "unused"
    collectData := (env0, some "failed to collect environment data")
    nowUnixNano := 2000000
    download := fun _ => ({ localFilePath := "" }, none)
    putConfigurePackageResult := fun _ => none }

/-- Result fixture: one install step. -/
def result3 : PackageResult :=
  { packageName := "pkg", version := "2.0", previousPackageVersion := "",
    operation := "Install", exitcode := 0, timing := 1000000000,
    trace := [{ operation := "Install", exitcode := 0, timing := 1002000000 }] }

theorem C3_report_witness : ReportResult ds3 result3 = .ok () :=
  (C3_report_collector_failure_nonfatal ds3 env0 "failed to collect environment data"
    result3 rfl).2 rfl

/-- Result fixture for the C4 counterexample: the step's raw timestamp 0
is strictly below the start timestamp 1. -/
def result4 : PackageResult :=
  { packageName := "pkg", version := "2.0", previousPackageVersion := "",
    operation := "Install", exitcode := 0, timing := 1,
    trace := [{ operation := "Install", exitcode := 0, timing := 0 }] }

theorem C4_step_timing_counterexample :
    result4.timing = 1 ∧
    result4.trace.map TraceOutput.timing = [0] ∧
    (buildReportInput env0 1 result4).steps.map ConfigurePackageResultStep.timing = [0] ∧
    ¬(0 : Int) < 0 := by
  decide

theorem wrap64_eq_self (x : Int) (h1 : -(2 ^ 63) ≤ x) (h2 : x < 2 ^ 63) : wrap64 x = x := by
  unfold wrap64
  have h3 : (0 : Int) ≤ x + 2 ^ 63 := by omega
  have h4 : x + 2 ^ 63 < 2 ^ 64 := by omega
  rw [Int.emod_eq_of_lt h3 h4]
  omega

theorem tdiv_million_neg (x : Int) (h : x ≤ -1000000) : Int.tdiv x 1000000 < 0 := by
  cases x with
  | ofNat n => exact absurd h (by rw [Int.ofNat_eq_coe]; omega)
  | negSucc m =>
    have hm : 1000000 ≤ m + 1 := by rw [Int.negSucc_eq] at h; omega
    have hpos : 0 < (m + 1) / 1000000 := Nat.div_pos hm (by omega)
    show -Int.ofNat ((m + 1) / 1000000) < 0
    rw [Int.ofNat_eq_coe]
    omega

theorem tdiv_million_zero_of_small (x : Int) (h1 : -1000000 < x) (h2 : x ≤ 0) :
    Int.tdiv x 1000000 = 0 := by
  cases x with
  | ofNat n =>
    have hn : n = 0 := by rw [Int.ofNat_eq_coe] at h2; omega
    subst hn
    decide
  | negSucc m =>
    have hm : m + 1 < 1000000 := by rw [Int.negSucc_eq] at h1; omega
    show -Int.ofNat ((m + 1) / 1000000) = 0
    rw [Nat.div_eq_of_lt hm]
    rfl

/-- C4 (amended): every step with raw timestamp T is reported with
elapsed milliseconds equal to the int64-wrapped difference T - S divided
by 1000000 with truncation toward zero, and the overall timing applies
the same conversion to the injected time source's reading; whenever T - S
fits in int64 this equals Int.tdiv (T - S) 1000000, which is zero when
T = S, zero — not negative — when -1000000 < T - S < 0, and negative
exactly when T - S ≤ -1000000. -/
theorem C4_step_timing_amended
    (env : Environment) (now S : Int) (result : PackageResult)
    (hS : result.timing = S) :
    (buildReportInput env now result).steps =
      result.trace.map (fun t =>
        { action := t.operation, result := t.exitcode,
          timing := stepTiming S t.timing }) ∧
    (buildReportInput env now result).overallTiming = stepTiming S now ∧
    (∀ T : Int, -(2 ^ 63) ≤ T - S → T - S < 2 ^ 63 →
      stepTiming S T = Int.tdiv (T - S) 1000000) ∧
    stepTiming S S = 0 ∧
    (∀ T : Int, -(2 ^ 63) ≤ T - S → T - S ≤ -1000000 → stepTiming S T < 0) ∧
    (∀ T : Int, -1000000 < T - S → T - S ≤ 0 → stepTiming S T = 0) := by
  subst hS
  refine ⟨rfl, rfl, ?_, ?_, ?_, ?_⟩
  · intro T hlo hhi
    unfold stepTiming int64Sub
    rw [wrap64_eq_self _ hlo hhi]
  · unfold stepTiming int64Sub
    rw [wrap64_eq_self _ (by omega) (by omega)]
    rw [Int.sub_self]
    decide
  · intro T hlo hneg
    unfold stepTiming int64Sub
    rw [wrap64_eq_self _ hlo (by omega)]
    exact tdiv_million_neg _ hneg
  · intro T h1 h2
    unfold stepTiming int64Sub
    rw [wrap64_eq_self _ (by omega) (by omega)]
    exact tdiv_million_zero_of_small _ h1 h2

theorem C4_step_timing_witness :
    (buildReportInput env0 3000000000 result3).steps =
      [{ action := "Install", result := 0, timing := 2 }] ∧
    (buildReportInput env0 3000000000 result3).overallTiming = 2000 ∧
    stepTiming 1000000000 1000000000 = 0 ∧
    stepTiming 1000000000 999000001 = 0 ∧
    stepTiming 1000000000 998000000 < 0 := by
  have h := C4_step_timing_amended env0 3000000000 1000000000 result3 rfl
  refine ⟨?_, ?_, h.2.2.2.1, ?_, ?_⟩
  · rw [h.1]
    decide
  · rw [h.2.1, h.2.2.1 3000000000 (by decide) (by decide)]
    decide
  · exact h.2.2.2.2.2 999000001 (by decide) (by decide)
  · exact h.2.2.2.2.1 998000000 (by decide) (by decide)
